import Mathlib

/-!
Verification of the solar data-acquisition daemon (`implementacion.py`,
`influxdb_sender.py`) against its specification.

The Python code is shallowly embedded: pure helpers become Lean functions over
`ℚ` (Python floats carry exact decimal constants here, so rational arithmetic
models the algorithms; `None` and `NaN` are explicit constructors of `PyVal`);
the stateful scheduler loop, the measurement pipeline and the InfluxDB sink
become explicit step functions over small state records, with the outcomes of
hardware reads, file operations and network writes supplied as oracle inputs.
Functions whose Python body may raise are embedded with `Except`-shaped results
where the source has no handler, and with the handler's `match` where it does.
-/

namespace SolarDaq

/-- A Python value as it flows through the measurement code: the `None`
marker, a floating-point NaN, or an ordinary finite number (modelled as a
rational, since every constant in the source is decimal). -/
inductive PyVal where
  | vnone : PyVal
  | vnan : PyVal
  | vnum : ℚ → PyVal
deriving DecidableEq

/-- A value counts as valid data for averaging exactly when it is an ordinary
number (`x is not None and not math.isnan(x)` in `calculate_average`). -/
def isValidDatum : PyVal → Bool
  | .vnum _ => true
  | _ => false

/-- The numbers held in a buffer, in order: the `valid_data` list comprehension
of `calculate_average` (drops `None` and NaN). -/
def validData (data_list : List PyVal) : List ℚ :=
  data_list.filterMap fun v =>
    match v with
    | .vnum q => some q
    | _ => none

/-- `calculate_average` (implementacion.py:890): mean of the valid entries of
the buffer, `None` when there are none. -/
def calculate_average (data_list : List PyVal) : Option ℚ :=
  let valid := validData data_list
  if valid.isEmpty then none else some (valid.sum / valid.length)

/-- A sample value is a "missing" marker in the sense of the data model
(§3 of the spec): the explicit `None` or a NaN, never an ordinary number. -/
def isMissingMarker : PyVal → Bool
  | .vnone => true
  | .vnan => true
  | .vnum _ => false

/-!
## Operating window (`is_within_operating_hours`, implementacion.py:206)

The source parses `OPERATING_START_TIME`/`OPERATING_END_TIME` ("HH:MM") into
minute-of-day counts and compares `now`'s minute-of-day against them.  The
embedding takes the already-parsed minute counts as arguments; the module
constants "05:00"/"18:00" become the two definitions below.
-/

/-- Start of the configured window, `"05:00"` as minutes of the day. -/
def OPERATING_START_MINUTES : Nat := 5 * 60

/-- End of the configured window, `"18:00"` as minutes of the day. -/
def OPERATING_END_MINUTES : Nat := 18 * 60

/-- `is_within_operating_hours`: inside the window, supporting ranges that
cross midnight (`end_minutes <= start_minutes`). -/
def is_within_operating_hours (startMinutes endMinutes currentMinutes : Nat) : Bool :=
  if endMinutes ≤ startMinutes then
    decide (startMinutes ≤ currentMinutes) || decide (currentMinutes < endMinutes)
  else
    decide (startMinutes ≤ currentMinutes) && decide (currentMinutes < endMinutes)

/-- The window classification as the specification words it: for a non-crossing
window (start < end) the minute lies in [start, end); for a crossing window
(end ≤ start) it lies in [start, 24:00) ∪ [0:00, end). -/
def insideWindowSpec (startMinutes endMinutes currentMinutes : Nat) : Prop :=
  if startMinutes < endMinutes then
    startMinutes ≤ currentMinutes ∧ currentMinutes < endMinutes
  else
    (startMinutes ≤ currentMinutes ∧ currentMinutes < 24 * 60) ∨ currentMinutes < endMinutes

/-- Claim C3: for every time of day, `is_within_operating_hours` classifies its
minute-of-day as inside the window exactly when, for a non-crossing window
(start < end), it lies in [start, end), and for a crossing window
(end ≤ start), it lies in [start, 24:00) ∪ [0:00, end); in particular for
start = 22:00, end = 06:00 the minutes 23:59 and 05:59 are inside and 07:00 is
outside. -/
theorem operating_hours_classification (startM endM cur : Nat) (hcur : cur < 24 * 60) :
    (is_within_operating_hours startM endM cur = true ↔ insideWindowSpec startM endM cur) ∧
    is_within_operating_hours (22 * 60) (6 * 60) (23 * 60 + 59) = true ∧
    is_within_operating_hours (22 * 60) (6 * 60) (5 * 60 + 59) = true ∧
    is_within_operating_hours (22 * 60) (6 * 60) (7 * 60) = false := by
  refine ⟨?_, by decide, by decide, by decide⟩
  unfold is_within_operating_hours insideWindowSpec
  rcases Nat.lt_or_ge startM endM with h | h
  · rw [if_neg (by omega), if_pos h]
    simp only [Bool.and_eq_true, decide_eq_true_eq]
  · rw [if_pos h, if_neg (by omega)]
    simp only [Bool.or_eq_true, decide_eq_true_eq]
    omega

/-- Witness for C3 at the crossing window 22:00–06:00 and the minute 23:59. -/
theorem operating_hours_classification_witness :
    insideWindowSpec (22 * 60) (6 * 60) (23 * 60 + 59) :=
  (operating_hours_classification (22 * 60) (6 * 60) (23 * 60 + 59) (by decide)).1.mp
    (by decide)

/-- Claim C4: `calculate_average` returns `None` exactly when the buffer has no
valid element (every element is `None` or NaN, including the empty buffer), and
otherwise returns exactly the sum of the valid subset divided by its size,
ignoring `None` and NaN elements. -/
theorem calculate_average_mean_of_valid (data_list : List PyVal) :
    (calculate_average data_list = none ↔
      ∀ v ∈ data_list, v = PyVal.vnone ∨ v = PyVal.vnan) ∧
    ((∃ v ∈ data_list, isValidDatum v = true) →
      calculate_average data_list =
        some ((validData data_list).sum / (validData data_list).length)) := by
  have hvalid_nil : validData data_list = [] ↔
      ∀ v ∈ data_list, v = PyVal.vnone ∨ v = PyVal.vnan := by
    unfold validData
    rw [List.filterMap_eq_nil_iff]
    constructor
    · intro h v hv
      have := h v hv
      cases v with
      | vnone => exact Or.inl rfl
      | vnan => exact Or.inr rfl
      | vnum q => simp at this
    · intro h v hv
      rcases h v hv with rfl | rfl <;> rfl
  have hnone : calculate_average data_list = none ↔ validData data_list = [] := by
    unfold calculate_average
    constructor
    · intro h
      by_contra hne
      rw [if_neg (by simp [List.isEmpty_iff, hne])] at h
      exact Option.some_ne_none _ h
    · intro h
      rw [if_pos (by simp [List.isEmpty_iff, h])]
  refine ⟨hnone.trans hvalid_nil, ?_⟩
  rintro ⟨v, hv, hvalidv⟩
  have hne : validData data_list ≠ [] := by
    cases v with
    | vnone => simp [isValidDatum] at hvalidv
    | vnan => simp [isValidDatum] at hvalidv
    | vnum q =>
      intro hnil
      have hmem : q ∈ validData data_list := by
        unfold validData
        exact List.mem_filterMap.mpr ⟨PyVal.vnum q, hv, rfl⟩
      rw [hnil] at hmem
      exact List.not_mem_nil q hmem
  unfold calculate_average
  rw [if_neg (by simp [List.isEmpty_iff, hne])]

/-- Witness for C4: a buffer holding NaN, 4, `None`, 6 averages to 5. -/
theorem calculate_average_mean_of_valid_witness :
    calculate_average [PyVal.vnan, PyVal.vnum 4, PyVal.vnone, PyVal.vnum 6] = some 5 := by
  rw [(calculate_average_mean_of_valid
    [PyVal.vnan, PyVal.vnum 4, PyVal.vnone, PyVal.vnum 6]).2
    ⟨PyVal.vnum 4, by decide, by decide⟩]
  rw [show validData [PyVal.vnan, PyVal.vnum 4, PyVal.vnone, PyVal.vnum 6] = [4, 6] from rfl]
  norm_num

/-!
## Thermistor plausibility filter and sliding buffers

`thermistor_readings` (implementacion.py:174) is a dict of twenty
`deque(maxlen=12)` buffers.  The background sampler `measurement_thread`
(implementacion.py:1609) appends a reading to a channel's buffer only when
`is_valid_temperature` accepts it.
-/

/-- Capacity of each thermistor buffer (`deque(maxlen=12)`). -/
def THERMISTOR_BUFFER_CAPACITY : Nat := 12

/-- Appending to a bounded `deque`: the new element goes to the right and, when
the capacity is exceeded, the oldest (leftmost) elements are dropped. -/
def dequePush (buf : List ℚ) (x : ℚ) (cap : Nat) : List ℚ :=
  let b := buf ++ [x]
  if cap < b.length then b.drop (b.length - cap) else b

/-- `is_valid_temperature` (implementacion.py:1597): not `None`, not NaN, and
within the fixed plausibility band 10.0 ≤ t ≤ 70.0 °C. -/
def is_valid_temperature : PyVal → Bool
  | .vnone => false
  | .vnan => false
  | .vnum t => decide ((10 : ℚ) ≤ t) && decide (t ≤ (70 : ℚ))

/-- One step of the sampler per channel (`measurement_thread`): the reading is
appended to the buffer only when `is_valid_temperature` accepts it. -/
def samplerStep (buf : List ℚ) (reading : PyVal) : List ℚ :=
  if is_valid_temperature reading then
    match reading with
    | .vnum t => dequePush buf t THERMISTOR_BUFFER_CAPACITY
    | _ => buf
  else buf

/-- The buffer contents produced by a whole history of sampler readings for one
channel, starting from the empty deque. -/
def runSampler (readings : List PyVal) : List ℚ :=
  readings.foldl samplerStep []

/-- Elements of a pushed deque come from the old buffer or are the new
element. -/
theorem mem_dequePush {buf : List ℚ} {x y : ℚ} {cap : Nat}
    (h : y ∈ dequePush buf x cap) : y ∈ buf ∨ y = x := by
  unfold dequePush at h
  dsimp only at h
  split at h
  · have := List.mem_of_mem_drop h
    rcases List.mem_append.mp this with h1 | h1
    · exact Or.inl h1
    · exact Or.inr (List.mem_singleton.mp h1)
  · rcases List.mem_append.mp h with h1 | h1
    · exact Or.inl h1
    · exact Or.inr (List.mem_singleton.mp h1)

/-- A single sampler step preserves the plausibility band of the buffer. -/
theorem samplerStep_band {buf : List ℚ} {r : PyVal}
    (hbuf : ∀ y ∈ buf, (10 : ℚ) ≤ y ∧ y ≤ 70) :
    ∀ y ∈ samplerStep buf r, (10 : ℚ) ≤ y ∧ y ≤ 70 := by
  unfold samplerStep
  split
  · rename_i hval
    cases r with
    | vnone => simp [is_valid_temperature] at hval
    | vnan => simp [is_valid_temperature] at hval
    | vnum t =>
      simp only [is_valid_temperature, Bool.and_eq_true, decide_eq_true_eq] at hval
      intro y hy
      rcases mem_dequePush hy with h | rfl
      · exact hbuf y h
      · exact hval
  · exact hbuf

/-- Every element a sampler history ever leaves in the buffer lies in the
plausibility band. -/
theorem runSampler_band (readings : List PyVal) :
    ∀ y ∈ runSampler readings, (10 : ℚ) ≤ y ∧ y ≤ 70 := by
  suffices h : ∀ buf, (∀ y ∈ buf, (10 : ℚ) ≤ y ∧ y ≤ 70) →
      ∀ y ∈ readings.foldl samplerStep buf, (10 : ℚ) ≤ y ∧ y ≤ 70 by
    exact h [] (by intro y hy; exact absurd hy (List.not_mem_nil y))
  induction readings with
  | nil => intro buf hbuf; exact hbuf
  | cons r rest ih =>
    intro buf hbuf
    exact ih (samplerStep buf r) (samplerStep_band hbuf)

/-- Lower bound: a list of rationals all at least `a` sums to at least
`a * length`. -/
theorem list_sum_ge (a : ℚ) (l : List ℚ) (h : ∀ y ∈ l, a ≤ y) :
    a * l.length ≤ l.sum := by
  induction l with
  | nil => simp
  | cons x xs ih =>
    have hx := h x (List.mem_cons_self x xs)
    have hxs := ih fun y hy => h y (List.mem_cons_of_mem x hy)
    simp only [List.sum_cons, List.length_cons]
    push_cast
    nlinarith

/-- Upper bound: a list of rationals all at most `b` sums to at most
`b * length`. -/
theorem list_sum_le (b : ℚ) (l : List ℚ) (h : ∀ y ∈ l, y ≤ b) :
    l.sum ≤ b * l.length := by
  induction l with
  | nil => simp
  | cons x xs ih =>
    have hx := h x (List.mem_cons_self x xs)
    have hxs := ih fun y hy => h y (List.mem_cons_of_mem x hy)
    simp only [List.sum_cons, List.length_cons]
    push_cast
    nlinarith

/-- The mean of a nonempty list whose elements lie in `[a, b]` lies in
`[a, b]`. -/
theorem mean_mem_band (a b : ℚ) (l : List ℚ) (hne : l ≠ [])
    (h : ∀ y ∈ l, a ≤ y ∧ y ≤ b) :
    a ≤ l.sum / l.length ∧ l.sum / l.length ≤ b := by
  have hlen : (0 : ℚ) < l.length := by
    have := List.length_pos.mpr hne
    exact_mod_cast this
  constructor
  · rw [le_div_iff₀ hlen]
    exact list_sum_ge a l fun y hy => (h y hy).1
  · rw [div_le_iff₀ hlen]
    exact list_sum_le b l fun y hy => (h y hy).2

/-- Claim C10: every value a sampler history inserts into a thermistor buffer
lies within 10.0 ≤ t ≤ 70.0 °C and is neither `None` nor NaN (the sampler
appends a reading only when `is_valid_temperature` accepts it); hence the
channel's aggregated mean is either "no data" or a value within that band. -/
theorem thermistor_buffer_mean_band (readings : List PyVal) :
    (∀ y ∈ runSampler readings, (10 : ℚ) ≤ y ∧ y ≤ 70) ∧
    (calculate_average ((runSampler readings).map PyVal.vnum) = none ∨
      ∃ q, calculate_average ((runSampler readings).map PyVal.vnum) = some q ∧
        (10 : ℚ) ≤ q ∧ q ≤ 70) := by
  refine ⟨runSampler_band readings, ?_⟩
  rcases List.eq_nil_or_concat (runSampler readings) with hnil | ⟨_, _, hcons⟩
  · left
    rw [hnil]
    rfl
  · right
    have hne : runSampler readings ≠ [] := by
      rw [hcons]; exact (List.concat_ne_nil _ _)
    have hvd : validData ((runSampler readings).map PyVal.vnum) = runSampler readings := by
      unfold validData
      rw [List.filterMap_map]
      rw [show ((fun v => match v with
          | PyVal.vnum q => some q
          | _ => none) ∘ PyVal.vnum) = some from rfl]
      exact List.filterMap_some _
    have hvdne : validData ((runSampler readings).map PyVal.vnum) ≠ [] := by
      rw [hvd]; exact hne
    refine ⟨(runSampler readings).sum / (runSampler readings).length, ?_, ?_⟩
    · unfold calculate_average
      rw [if_neg (by simp [List.isEmpty_iff, hvdne]), hvd]
    · exact mean_mem_band 10 70 (runSampler readings) hne (runSampler_band readings)

/-- Witness for C10 on a concrete history: 25 and 30 survive, 200 and NaN are
rejected, and the mean stays in band. -/
theorem thermistor_buffer_mean_band_witness :
    (10 : ℚ) ≤ 25 ∧ (25 : ℚ) ≤ 70 :=
  (thermistor_buffer_mean_band [PyVal.vnum 25, PyVal.vnan, PyVal.vnum 200, PyVal.vnum 30]).1
    25 (by decide)

/-!
## Telemetry point construction (`create_measurement_point`, influxdb_sender.py:173)

The source is a chain of uniform guards, one per source key: for an ordinary
key, `if key in measurement_data and measurement_data[key] is not None:
point.field(name, float(value))`; for the twenty thermistor keys the guard
additionally skips NaN.  The embedding lists those guards as a key table in
source order and folds the per-key field construction over it; the
string-valued `wind_dir_str` entry of the caller's dict is never mapped to a
field by the source and is not part of the modelled dict, whose values are
numeric-or-missing `PyVal`s.  `float()` on such a value is the identity, and
the fixed tags and the nanosecond timestamp are not modelled.
-/

/-- Measurement data as passed to `create_measurement_point`: a Python dict
with string keys (association list; keys are unique in the caller). -/
abbrev MData := List (String × PyVal)

/-- Python dict lookup `measurement_data[key]` (`none` when the key is
absent). -/
def lookupKey (k : String) : MData → Option PyVal
  | [] => none
  | (k', v) :: rest => if k' = k then some v else lookupKey k rest

/-- The key table of `create_measurement_point`, in source order: source key,
InfluxDB field name, and whether the key is a thermistor channel (whose guard
also skips NaN). -/
def pointKeyTable : List (String × String × Bool) :=
  [("v0", "panel1_voltage", false), ("i0", "panel1_current", false),
   ("p0", "panel1_power", false), ("e0", "panel1_energy", false),
   ("v1", "panel2_voltage", false), ("i1", "panel2_current", false),
   ("p1", "panel2_power", false), ("e1", "panel2_energy", false),
   ("irradiance", "irradiance", false),
   ("T0", "thermistor_00_temp", true), ("T1", "thermistor_01_temp", true),
   ("T2", "thermistor_02_temp", true), ("T3", "thermistor_03_temp", true),
   ("T4", "thermistor_04_temp", true), ("T5", "thermistor_05_temp", true),
   ("T6", "thermistor_06_temp", true), ("T7", "thermistor_07_temp", true),
   ("T8", "thermistor_08_temp", true), ("T9", "thermistor_09_temp", true),
   ("T10", "thermistor_10_temp", true), ("T11", "thermistor_11_temp", true),
   ("T12", "thermistor_12_temp", true), ("T13", "thermistor_13_temp", true),
   ("T14", "thermistor_14_temp", true), ("T15", "thermistor_15_temp", true),
   ("T16", "thermistor_16_temp", true), ("T17", "thermistor_17_temp", true),
   ("T18", "thermistor_18_temp", true), ("T19", "thermistor_19_temp", true),
   ("rain_mm", "rain_accumulation", false), ("wind_speed", "wind_speed", false),
   ("wind_direction", "wind_direction", false), ("dht_temp", "ambient_temperature", false),
   ("dht_humidity", "ambient_humidity", false)]

/-- One guard of `create_measurement_point`: the field written for one table
row.  A thermistor guard keeps only ordinary numbers; an ordinary guard keeps
everything except a missing key or `None` (so a NaN value is passed through to
`float()` unchanged). -/
def fieldEntries (d : MData) (e : String × String × Bool) : List (String × PyVal) :=
  if e.2.2 then
    match lookupKey e.1 d with
    | some (.vnum q) => [(e.2.1, .vnum q)]
    | _ => []
  else
    match lookupKey e.1 d with
    | some .vnone => []
    | some v => [(e.2.1, v)]
    | none => []

/-- `create_measurement_point`: the fields of the constructed point, in source
order. -/
def create_measurement_point (d : MData) : List (String × PyVal) :=
  pointKeyTable.flatMap (fieldEntries d)

/-- The claim's notion of a present source value: the key maps to a value that
is not missing/`None`, and for a thermistor channel also not NaN. -/
def sourcePresent (d : MData) (k : String) (isTherm : Bool) : Bool :=
  match lookupKey k d with
  | some (.vnum _) => true
  | some .vnan => !isTherm
  | _ => false

/-- Anything `fieldEntries` emits carries the row's field name, the unchanged
looked-up value, and certifies the source value present. -/
theorem fieldEntries_sound {d : MData} {e : String × String × Bool} {p : String × PyVal}
    (h : p ∈ fieldEntries d e) :
    p.1 = e.2.1 ∧ lookupKey e.1 d = some p.2 ∧ sourcePresent d e.1 e.2.2 = true := by
  rcases hl : lookupKey e.1 d with _ | v
  · cases ht : e.2.2 <;> simp [fieldEntries, hl, ht] at h
  · cases v with
    | vnone => cases ht : e.2.2 <;> simp [fieldEntries, hl, ht] at h
    | vnan =>
      cases ht : e.2.2 with
      | true => simp [fieldEntries, hl, ht] at h
      | false =>
        simp only [fieldEntries, hl, ht, Bool.false_eq_true, if_false,
          List.mem_singleton] at h
        subst h
        exact ⟨rfl, rfl, by simp [sourcePresent, hl, ht]⟩
    | vnum q =>
      cases ht : e.2.2 with
      | true =>
        simp only [fieldEntries, hl, ht, if_true, List.mem_singleton] at h
        subst h
        exact ⟨rfl, rfl, by simp [sourcePresent, hl]⟩
      | false =>
        simp only [fieldEntries, hl, ht, Bool.false_eq_true, if_false,
          List.mem_singleton] at h
        subst h
        exact ⟨rfl, rfl, by simp [sourcePresent, hl]⟩

/-- When the source value is present, `fieldEntries` emits exactly one field:
the row's field name with the unchanged value. -/
theorem fieldEntries_complete {d : MData} {e : String × String × Bool}
    (h : sourcePresent d e.1 e.2.2 = true) :
    ∃ v, fieldEntries d e = [(e.2.1, v)] ∧ lookupKey e.1 d = some v := by
  rcases hl : lookupKey e.1 d with _ | v
  · simp [sourcePresent, hl] at h
  · cases v with
    | vnone => simp [sourcePresent, hl] at h
    | vnan =>
      cases ht : e.2.2 with
      | true => simp [sourcePresent, hl, ht] at h
      | false => exact ⟨.vnan, by simp [fieldEntries, hl, ht], rfl⟩
    | vnum q =>
      cases ht : e.2.2 with
      | true => exact ⟨.vnum q, by simp [fieldEntries, hl, ht], rfl⟩
      | false => exact ⟨.vnum q, by simp [fieldEntries, hl, ht], rfl⟩

/-- The InfluxDB field names of the table are pairwise distinct. -/
theorem pointKeyTable_names_nodup : (pointKeyTable.map fun e => e.2.1).Nodup := by
  decide

/-- Claim C6: the telemetry point built by `create_measurement_point` contains
a field's key exactly when the corresponding source value is present (not
missing/`None`, and for temperature channels not NaN); a missing source value
omits the field entirely rather than writing zero or null, and every present
source value appears unchanged under its field name. -/
theorem create_measurement_point_fields (d : MData) (k fname : String) (isTherm : Bool)
    (hk : (k, fname, isTherm) ∈ pointKeyTable) :
    ((∃ v, (fname, v) ∈ create_measurement_point d) ↔
      sourcePresent d k isTherm = true) ∧
    (∀ v, (fname, v) ∈ create_measurement_point d → lookupKey k d = some v) := by
  have hrow : ∀ v, (fname, v) ∈ create_measurement_point d →
      lookupKey k d = some v ∧ sourcePresent d k isTherm = true := by
    intro v hv
    unfold create_measurement_point at hv
    obtain ⟨e, he, hmem⟩ := List.mem_flatMap.mp hv
    obtain ⟨hname, hlook, hpres⟩ := fieldEntries_sound hmem
    have : e = (k, fname, isTherm) := by
      exact List.inj_on_of_nodup_map pointKeyTable_names_nodup he hk hname.symm
    subst this
    exact ⟨hlook, hpres⟩
  refine ⟨⟨?_, ?_⟩, fun v hv => (hrow v hv).1⟩
  · rintro ⟨v, hv⟩
    exact (hrow v hv).2
  · intro hpres
    obtain ⟨v, hentry, hlook⟩ := fieldEntries_complete (e := (k, fname, isTherm)) hpres
    refine ⟨v, ?_⟩
    unfold create_measurement_point
    exact List.mem_flatMap.mpr ⟨(k, fname, isTherm), hk, by rw [hentry]; exact List.mem_singleton.mpr rfl⟩

/-- Witness for C6: with only `v0` present, the point carries
`panel1_voltage` unchanged, and `ambient_temperature` is absent. -/
theorem create_measurement_point_fields_witness :
    (∃ v, ("panel1_voltage", v) ∈ create_measurement_point [("v0", PyVal.vnum 12)]) ∧
    ¬ ∃ v, ("ambient_temperature", v) ∈ create_measurement_point [("v0", PyVal.vnum 12)] := by
  constructor
  · exact (create_measurement_point_fields [("v0", PyVal.vnum 12)] "v0" "panel1_voltage"
      false (by decide)).1.mpr (by decide)
  · intro hc
    have := (create_measurement_point_fields [("v0", PyVal.vnum 12)] "dht_temp"
      "ambient_temperature" false (by decide)).1.mp hc
    exact absurd this (by decide)

/-!
## Power-meter reads (`read_ina228`, implementacion.py:748)

`read_ina228` retries a timeout-guarded block up to `MAX_RETRY_ATTEMPTS = 3`
times.  Within one attempt each register read is individually guarded: a raise
or a `None` is substituted by `0.0` (NaN for the die temperature).  If every
attempt raises, a fixed all-zero dictionary (NaN temperature) is returned.
When the sensor was never initialised (`ina_sensors.get(address) is None`) the
function returns `None`.
-/

/-- The register values offered by the driver during one retry attempt:
`raises` models the whole guarded block raising (e.g. the SIGALRM timeout);
each register read either raises (`Except.error`) or yields an optional
value. -/
structure InaAttempt where
  raises : Bool
  bus_voltage : Except Unit (Option ℚ)
  current : Except Unit (Option ℚ)
  power : Except Unit (Option ℚ)
  energy : Except Unit (Option ℚ)
  die_temperature : Except Unit (Option ℚ)

/-- The values dictionary built by a successful `read_ina228` attempt. -/
structure InaValues where
  voltage : ℚ
  current : ℚ
  power : ℚ
  energy : ℚ
  temperature : PyVal
deriving DecidableEq

/-- Field coercion of one guarded register read: a raise or a `None` becomes
`0.0`. -/
def inaField (r : Except Unit (Option ℚ)) : ℚ :=
  match r with
  | .ok (some q) => q
  | _ => 0

/-- The values dictionary one non-raising attempt produces (die temperature
falls back to NaN instead of zero). -/
def attemptValues (a : InaAttempt) : InaValues where
  voltage := inaField a.bus_voltage
  current := inaField a.current
  power := inaField a.power
  energy := inaField a.energy
  temperature :=
    match a.die_temperature with
    | .ok (some q) => .vnum q
    | _ => .vnan

/-- The default returned when every attempt raised: zeros and a NaN
temperature. -/
def inaDefaultValues : InaValues := ⟨0, 0, 0, 0, .vnan⟩

/-- The retry loop of `read_ina228` over the (three) attempts. -/
def read_ina228_loop : List InaAttempt → InaValues
  | [] => inaDefaultValues
  | a :: rest => if a.raises then read_ina228_loop rest else attemptValues a

/-- `read_ina228`: `None` when the sensor is absent, otherwise the retry
loop over `MAX_RETRY_ATTEMPTS = 3` attempts. -/
def read_ina228 (sensorPresent : Bool) (a1 a2 a3 : InaAttempt) : Option InaValues :=
  if sensorPresent then some (read_ina228_loop [a1, a2, a3]) else none

/-- The validated per-panel electrical quantities. -/
structure PanelData where
  voltage : ℚ
  current : ℚ
  power : ℚ
  energy : ℚ
deriving DecidableEq

/-- `validate_ina228_data` (implementacion.py:863): `None`-safe extraction,
converting the raw energy accumulator to Wh (divide by 3600). -/
def validate_ina228_data : Option InaValues → PanelData
  | none => ⟨0, 0, 0, 0⟩
  | some v => ⟨v.voltage, v.current, v.power, v.energy / 3600⟩

/-!
## The per-minute measurement pipeline (`record_measurement`, implementacion.py:1362)

The embedding keeps the source's control flow on the normal path, with the
outcomes of hardware reads, the aggregation buffers, file existence and the
InfluxDB send supplied as inputs.  The file append and the telemetry send are
recorded as an ordered event trace.  Numeric cell formatting (`f"{v:.4f}"`)
is elided: a cell carries the value it formats.  The string-valued
`wind_dir_str` dict entry (never mapped to a field by
`create_measurement_point`) is not part of the modelled InfluxDB dict.
-/

/-- `MM_PER_TICK = 0.2794` (mm of rain per pluviometer pulse). -/
def MM_PER_TICK : ℚ := 2794 / 10000

/-- One CSV cell of the daily file. -/
inductive Cell where
  | num : ℚ → Cell
  | na : Cell
  | winddir : ℚ → String → Cell
  | stamp : String → Cell
deriving DecidableEq

/-- The inputs of one `record_measurement` cycle. -/
structure RecordEnv where
  nowMinutes : Nat
  nowStamp : String
  file_recording_active : Bool
  current_csv_file : Option String
  ina40 : Option InaValues
  ina41 : Option InaValues
  irradiance : Option ℚ
  wind_angle : Option ℚ
  wind_dir : String
  rain_count : Nat
  dht_temps : List PyVal
  dht_hums : List PyVal
  wind_speeds : List PyVal
  therm_bufs : Nat → List PyVal
  file_exists : Bool
  create_ok : Bool
  influx_initialized : Bool

/-- The outcome of the inline InfluxDB send as observed by the pipeline:
a returned success/failure flag, or an exception escaping the call. -/
inductive SendResult where
  | sent : Bool → SendResult
  | raised : SendResult
deriving DecidableEq

/-- One observable side effect of the pipeline, in order of occurrence. -/
inductive REvent where
  | rowWrite : List Cell → REvent
  | sendAttempt : MData → SendResult → REvent
deriving DecidableEq

/-- What one cycle produced: its boolean return value, the ordered side
effects, and the minute rain counter after the cycle. -/
structure RecordOut where
  retval : Bool
  events : List REvent
  rain_after : Nat
deriving DecidableEq

/-- Helper: `Option ℚ` to the dict value used for `wind_speed`,
`wind_direction`, `dht_temp`, `dht_humidity` (Python `None` stays `None`). -/
def optVal : Option ℚ → PyVal
  | some q => .vnum q
  | none => .vnone

/-- The data row of one cycle, in the daily file's column order. -/
def buildRow (env : RecordEnv) : List Cell :=
  let p1 := validate_ina228_data env.ina40
  let p2 := validate_ina228_data env.ina41
  let irr := env.irradiance.getD 0
  let avg_wind := calculate_average env.wind_speeds
  let avg_hum := calculate_average env.dht_hums
  let avg_temp := calculate_average env.dht_temps
  [Cell.num p1.voltage, Cell.num p2.voltage, Cell.num p1.current, Cell.num p2.current,
   Cell.num p1.power, Cell.num p2.power, Cell.num p1.energy, Cell.num p2.energy,
   Cell.num irr]
  ++ ((List.range 20).map fun i =>
        match calculate_average (env.therm_bufs i) with
        | some q => Cell.num q
        | none => Cell.na)
  ++ [Cell.num (env.rain_count * MM_PER_TICK),
      (match avg_wind with | some q => Cell.num q | none => Cell.na),
      (match env.wind_angle with
       | some a => Cell.winddir a env.wind_dir
       | none => Cell.na),
      (match avg_hum with | some q => Cell.num q | none => Cell.na),
      (match avg_temp with | some q => Cell.num q | none => Cell.na),
      Cell.stamp env.nowStamp]

/-- The twenty thermistor dict keys `f"T{i}"`, in channel order. -/
def thermKeys : List String :=
  ["T0", "T1", "T2", "T3", "T4", "T5", "T6", "T7", "T8", "T9",
   "T10", "T11", "T12", "T13", "T14", "T15", "T16", "T17", "T18", "T19"]

/-- The dict key `f"T{i}"` of thermistor channel `i`. -/
def thermKey (i : Nat) : String := thermKeys.getD i ""

/-- The `influx_data` dict of one cycle, in source insertion order (without the
string-valued `wind_dir_str` entry, which the point builder ignores). -/
def buildInfluxData (env : RecordEnv) : MData :=
  let p1 := validate_ina228_data env.ina40
  let p2 := validate_ina228_data env.ina41
  let irr := env.irradiance.getD 0
  [("v0", .vnum p1.voltage), ("v1", .vnum p2.voltage),
   ("i0", .vnum p1.current), ("i1", .vnum p2.current),
   ("p0", .vnum p1.power), ("p1", .vnum p2.power),
   ("e0", .vnum p1.energy), ("e1", .vnum p2.energy),
   ("irradiance", .vnum irr),
   ("rain_mm", .vnum (env.rain_count * MM_PER_TICK)),
   ("wind_speed", optVal (calculate_average env.wind_speeds)),
   ("wind_direction", optVal env.wind_angle),
   ("dht_temp", optVal (calculate_average env.dht_temps)),
   ("dht_humidity", optVal (calculate_average env.dht_hums))]
  ++ ((List.range 20).flatMap fun i =>
        match calculate_average (env.therm_bufs i) with
        | some q => [(thermKey i, PyVal.vnum q)]
        | none => [])

/-- `record_measurement`: outside the window or with recording inactive the
cycle only prints and returns `True`; otherwise it writes exactly one data
row (creating the file first when it vanished; a failed creation aborts with
`False`), then — only if InfluxDB was initialised — attempts the remote send,
whose outcome (including a raise, caught by the surrounding
`try/except`) is only logged, and finally returns `True` with the minute rain
counter reset. -/
def record_measurement (env : RecordEnv) (send : SendResult) : RecordOut :=
  if ¬ (is_within_operating_hours OPERATING_START_MINUTES OPERATING_END_MINUTES
      env.nowMinutes = true) then
    ⟨true, [], env.rain_count⟩
  else if env.file_recording_active = false ∨ env.current_csv_file = none then
    ⟨true, [], env.rain_count⟩
  else if env.file_exists = false ∧ env.create_ok = false then
    ⟨false, [], env.rain_count⟩
  else
    ⟨true,
     REvent.rowWrite (buildRow env) ::
       (if env.influx_initialized then [REvent.sendAttempt (buildInfluxData env) send]
        else []),
     0⟩

/-- The data rows a cycle appended, in order. -/
def rowsOf (events : List REvent) : List (List Cell) :=
  events.filterMap fun e =>
    match e with
    | .rowWrite row => some row
    | _ => none

/-!
## The InfluxDB sink (`send_measurement_to_influx`, influxdb_sender.py:257)

State: the connection handle pair (`influx_client`/`write_api`, collapsed to a
`connected` flag), the consecutive-failure counter, and the two timestamps.
Oracles supply the outcomes of the network primitives: `auto_recover_connection`
(whose internal three `init_influxdb` attempts are collapsed into one boolean
outcome — on success `init_influxdb` resets the failure counter and stamps both
timestamps, influxdb_sender.py:69–71; on failure the handles are left closed),
`create_measurement_point` (`None` when its internal guard caught an error) and
the two possible `write_api.write` calls.  The embedding returns
`Except Unit SendOut`: every primitive failure the source catches is handled by
a `match`, so an escaping `.error` would mean an unhandled raise.
-/

/-- `MAX_CONSECUTIVE_FAILURES = 5`. -/
def MAX_CONSECUTIVE_FAILURES : Nat := 5

/-- `CONNECTION_REFRESH_HOURS = 12`. -/
def CONNECTION_REFRESH_HOURS : ℚ := 12

/-- The sink's connection-health state. -/
structure SinkState where
  connected : Bool
  consecutive_failures : Nat
  last_successful_write : Option ℚ
  connection_init_time : Option ℚ
deriving DecidableEq

/-- `needs_connection_refresh` (influxdb_sender.py:133): never initialised, or
older than the refresh threshold. -/
def needs_connection_refresh (cit : Option ℚ) (now : ℚ) : Bool :=
  match cit with
  | none => true
  | some t => decide (CONNECTION_REFRESH_HOURS ≤ (now - t) / 3600)

/-- `auto_recover_connection` (influxdb_sender.py:147): on success the fresh
`init_influxdb` stamps both timestamps and zeroes the failure counter; on
failure the connection handles end up closed. -/
def auto_recover_connection (s : SinkState) (ok : Bool) (now : ℚ) : Bool × SinkState :=
  if ok then
    (true, { connected := true, consecutive_failures := 0,
             last_successful_write := some now, connection_init_time := some now })
  else (false, { s with connected := false })

/-- The state `auto_recover_connection` leaves after a successful reconnect. -/
def recoveredState (now : ℚ) : SinkState :=
  { connected := true, consecutive_failures := 0,
    last_successful_write := some now, connection_init_time := some now }

/-- The oracle outcomes of one `send_measurement_to_influx` call. -/
structure SendOracle where
  now : ℚ
  refreshRecoverOk : Bool
  reconnectRecoverOk : Bool
  pointResult : Option MData
  writeResult : Except Unit Unit
  thresholdRecoverOk : Bool
  retryPointResult : Option MData
  retryWriteResult : Except Unit Unit

/-- What one send call produced: its returned flag, the new sink state, and
how many `auto_recover_connection` calls and `write_api.write` calls it
made. -/
structure SendOut where
  result : Bool
  state : SinkState
  recoverCalls : Nat
  writeCalls : Nat
deriving DecidableEq

/-- The `with influx_lock` section of `send_measurement_to_influx`: build the
point, write it, and on a write failure that brings the counter to the
threshold perform one recovery and — only if it succeeded — one retry. -/
def sendLocked (s : SinkState) (r : Nat) (o : SendOracle) : SendOut :=
  match o.pointResult with
  | none => ⟨false, { s with consecutive_failures := s.consecutive_failures + 1 }, r, 0⟩
  | some _ =>
    match o.writeResult with
    | .ok _ =>
      ⟨true, { s with consecutive_failures := 0, last_successful_write := some o.now }, r, 1⟩
    | .error _ =>
      let s1 := { s with consecutive_failures := s.consecutive_failures + 1 }
      if MAX_CONSECUTIVE_FAILURES ≤ s1.consecutive_failures then
        match auto_recover_connection s1 o.thresholdRecoverOk o.now with
        | (true, s2) =>
          match o.retryPointResult with
          | some _ =>
            match o.retryWriteResult with
            | .ok _ =>
              let s3 := { s2 with consecutive_failures := 0, last_successful_write := some o.now }
              ⟨true, s3, r + 1, 2⟩
            | .error _ => ⟨false, s2, r + 1, 2⟩
          | none => ⟨false, s2, r + 1, 1⟩
        | (false, s2) => ⟨false, s2, r + 1, 1⟩
      else ⟨false, s1, r, 1⟩

/-- `send_measurement_to_influx`: preventive refresh when the connection is
old, a bounded reconnect when not connected, then the locked write section.
All primitive failures the source catches are handled here, so the result is
`Except.ok` for every oracle. -/
def send_measurement_to_influx (s0 : SinkState) (o : SendOracle) : Except Unit SendOut :=
  let pre :=
    if needs_connection_refresh s0.connection_init_time o.now then
      ((auto_recover_connection s0 o.refreshRecoverOk o.now).2, 1)
    else (s0, 0)
  if pre.1.connected = false then
    match auto_recover_connection pre.1 o.reconnectRecoverOk o.now with
    | (true, s2) => .ok (sendLocked s2 (pre.2 + 1) o)
    | (false, s2) => .ok ⟨false, s2, pre.2 + 1, 0⟩
  else .ok (sendLocked pre.1 pre.2 o)

/-- With a live connection and no preventive refresh due, `send` goes straight
to the locked write section. -/
theorem send_connected_fresh (s : SinkState) (o : SendOracle)
    (href : needs_connection_refresh s.connection_init_time o.now = false)
    (hconn : s.connected = true) :
    send_measurement_to_influx s o = .ok (sendLocked s 0 o) := by
  unfold send_measurement_to_influx
  rw [href]
  simp [hconn]

/-- Claim C7 (amended): with a live, fresh connection and a well-formed point,
a write failure increments the counter; when the incremented counter reaches
`MAX_CONSECUTIVE_FAILURES = 5` the send performs exactly one reconnect attempt
and retries the same point exactly once more only when that reconnect
succeeded (a failed reconnect gives up with no retry, and a successful
reconnect itself already zeroes the counter and stamps a success time, so a
failed retry leaves the counter at zero); a successful send resets the counter
to zero and records the success timestamp. -/
theorem send_failure_threshold_behavior (s : SinkState) (o : SendOracle) (d : MData)
    (href : needs_connection_refresh s.connection_init_time o.now = false)
    (hconn : s.connected = true)
    (hpoint : o.pointResult = some d) :
    (o.writeResult = .ok () →
      send_measurement_to_influx s o =
        .ok ⟨true, { s with consecutive_failures := 0, last_successful_write := some o.now }, 0, 1⟩) ∧
    (o.writeResult = .error () →
      s.consecutive_failures + 1 < MAX_CONSECUTIVE_FAILURES →
      send_measurement_to_influx s o =
        .ok ⟨false, { s with consecutive_failures := s.consecutive_failures + 1 }, 0, 1⟩) ∧
    (o.writeResult = .error () →
      MAX_CONSECUTIVE_FAILURES ≤ s.consecutive_failures + 1 →
      o.thresholdRecoverOk = false →
      send_measurement_to_influx s o =
        .ok ⟨false, { s with connected := false, consecutive_failures := s.consecutive_failures + 1 }, 1, 1⟩) ∧
    (o.writeResult = .error () →
      MAX_CONSECUTIVE_FAILURES ≤ s.consecutive_failures + 1 →
      o.thresholdRecoverOk = true →
      ((∃ d2, o.retryPointResult = some d2) →
        (o.retryWriteResult = .ok () →
          send_measurement_to_influx s o = .ok ⟨true, recoveredState o.now, 1, 2⟩) ∧
        (o.retryWriteResult = .error () →
          send_measurement_to_influx s o = .ok ⟨false, recoveredState o.now, 1, 2⟩)) ∧
      (o.retryPointResult = none →
        send_measurement_to_influx s o = .ok ⟨false, recoveredState o.now, 1, 1⟩)) := by
  rw [send_connected_fresh s o href hconn]
  refine ⟨?_, ?_, ?_, ?_⟩
  · intro hw
    unfold sendLocked
    rw [hpoint, hw]
  · intro hw hlt
    unfold sendLocked
    rw [hpoint, hw]
    simp only [if_neg (by omega : ¬ MAX_CONSECUTIVE_FAILURES ≤ s.consecutive_failures + 1)]
  · intro hw hge hrec
    unfold sendLocked
    rw [hpoint, hw]
    simp only [if_pos hge, auto_recover_connection, hrec, Bool.false_eq_true, if_false]
  · intro hw hge hrec
    constructor
    · rintro ⟨d2, hd2⟩
      constructor
      · intro hrw
        unfold sendLocked
        rw [hpoint, hw]
        simp only [if_pos hge, auto_recover_connection, hrec, if_true, hd2, hrw]
        rfl
      · intro hrw
        unfold sendLocked
        rw [hpoint, hw]
        simp only [if_pos hge, auto_recover_connection, hrec, if_true, hd2, hrw]
        rfl
    · intro hd2
      unfold sendLocked
      rw [hpoint, hw]
      simp only [if_pos hge, auto_recover_connection, hrec, if_true, hd2]
      rfl

/-- Witness for C7's amended behavior: a successful send from a live, fresh
connection resets the counter and stamps the success time. -/
theorem send_failure_threshold_behavior_witness :
    send_measurement_to_influx ⟨true, 3, some 0, some 0⟩
      ⟨0, true, true, some [], .ok (), true, none, .ok ()⟩ =
      .ok ⟨true, ⟨true, 0, some 0, some 0⟩, 0, 1⟩ :=
  (send_failure_threshold_behavior ⟨true, 3, some 0, some 0⟩
      ⟨0, true, true, some [], .ok (), true, none, .ok ()⟩ []
      (by norm_num [needs_connection_refresh, CONNECTION_REFRESH_HOURS])
      rfl rfl).1 rfl

/-- Claim C7 counterexample: at failure counter 4 with a live, fresh
connection, a write failure brings the counter to the threshold 5 and the
reconnect attempt fails, so the point is given up with one reconnect call and
only the one original write — no retry of the same point is performed,
contradicting "retries the same point exactly once more". -/
theorem send_no_retry_on_failed_reconnect_cex :
    send_measurement_to_influx ⟨true, 4, some 0, some 0⟩
      ⟨0, true, true, some [], .error (), false, none, .ok ()⟩ =
      .ok ⟨false, ⟨false, 5, some 0, some 0⟩, 1, 1⟩ ∧
    ¬ ∃ out, send_measurement_to_influx ⟨true, 4, some 0, some 0⟩
        ⟨0, true, true, some [], .error (), false, none, .ok ()⟩ = .ok out ∧
      out.writeCalls = 2 := by
  have h : send_measurement_to_influx ⟨true, 4, some 0, some 0⟩
      ⟨0, true, true, some [], .error (), false, none, .ok ()⟩ =
      .ok ⟨false, ⟨false, 5, some 0, some 0⟩, 1, 1⟩ := by
    rw [send_connected_fresh _ _
      (by norm_num [needs_connection_refresh, CONNECTION_REFRESH_HOURS]) rfl]
    unfold sendLocked
    norm_num [auto_recover_connection, MAX_CONSECUTIVE_FAILURES]
  refine ⟨h, ?_⟩
  rintro ⟨out, hout, hw⟩
  rw [h] at hout
  obtain rfl : out = ⟨false, ⟨false, 5, some 0, some 0⟩, 1, 1⟩ :=
    (Except.ok.injEq _ _).mp hout.symm
  exact absurd hw (by decide)

/-- Every branch of the sink's send returns `Except.ok`: all primitive
failures are caught inside. -/
theorem send_never_raises (st : SinkState) (o : SendOracle) :
    ∃ out, send_measurement_to_influx st o = Except.ok out := by
  unfold send_measurement_to_influx
  dsimp only
  repeat' split
  all_goals exact ⟨_, rfl⟩

/-- The pipeline's return value, appended rows and rain reset do not depend on
the send outcome. -/
theorem record_measurement_send_irrelevant (env : RecordEnv) (s1 s2 : SendResult) :
    (record_measurement env s1).retval = (record_measurement env s2).retval ∧
    rowsOf (record_measurement env s1).events = rowsOf (record_measurement env s2).events ∧
    (record_measurement env s1).rain_after = (record_measurement env s2).rain_after := by
  unfold record_measurement
  split
  · exact ⟨rfl, rfl, rfl⟩
  · split
    · exact ⟨rfl, rfl, rfl⟩
    · split
      · exact ⟨rfl, rfl, rfl⟩
      · refine ⟨rfl, ?_, rfl⟩
        by_cases h : env.influx_initialized <;> simp [rowsOf, h]

/-- The only possible event traces of a cycle: nothing, one row, or one row
followed by one send attempt — the row always precedes the send. -/
theorem record_measurement_event_shape (env : RecordEnv) (send : SendResult) :
    (record_measurement env send).events = [] ∨
    (record_measurement env send).events = [REvent.rowWrite (buildRow env)] ∨
    (record_measurement env send).events =
      [REvent.rowWrite (buildRow env), REvent.sendAttempt (buildInfluxData env) send] := by
  unfold record_measurement
  split
  · exact Or.inl rfl
  · split
    · exact Or.inl rfl
    · split
      · exact Or.inl rfl
      · by_cases h : env.influx_initialized <;> simp [h]

/-- Claim C8: the telemetry-forwarding outcome never affects the rest of the
cycle — the CSV row is appended before the send is attempted (the only traces
are nothing, row only, or row followed by send), `send_measurement_to_influx`
never raises past its boundary, and whatever the send outcome (success,
failure, or a raise swallowed by the pipeline's `try/except`) the cycle's
return value, its written rows and its rain reset are identical. -/
theorem influx_outcome_never_affects_cycle (env : RecordEnv) (s1 s2 : SendResult)
    (st : SinkState) (o : SendOracle) :
    ((record_measurement env s1).retval = (record_measurement env s2).retval ∧
      rowsOf (record_measurement env s1).events = rowsOf (record_measurement env s2).events ∧
      (record_measurement env s1).rain_after = (record_measurement env s2).rain_after) ∧
    ((record_measurement env s1).events = [] ∨
      (record_measurement env s1).events = [REvent.rowWrite (buildRow env)] ∨
      (record_measurement env s1).events =
        [REvent.rowWrite (buildRow env), REvent.sendAttempt (buildInfluxData env) s1]) ∧
    (∃ out, send_measurement_to_influx st o = Except.ok out) :=
  ⟨record_measurement_send_irrelevant env s1 s2,
   record_measurement_event_shape env s1,
   send_never_raises st o⟩

/-!
## Claim C5: a cycle whose power-meter reads all fail
-/

/-- An `read_ina228` attempt whose whole guarded block raises. -/
def failingAttempt : InaAttempt :=
  ⟨true, .error (), .error (), .error (), .error (), .error ()⟩

/-- When every attempt raises, `read_ina228` returns the all-zero defaults
dictionary (NaN temperature), not `None`. -/
theorem read_ina228_all_fail (a1 a2 a3 : InaAttempt)
    (h1 : a1.raises = true) (h2 : a2.raises = true) (h3 : a3.raises = true) :
    read_ina228 true a1 a2 a3 = some inaDefaultValues := by
  simp [read_ina228, read_ina228_loop, h1, h2, h3]

/-- With the all-zero defaults as meter 1's data, the telemetry point contains
all four `panel1` fields with value `0.0`. -/
theorem panel1_fields_zero (env : RecordEnv) (h : env.ina40 = some inaDefaultValues) :
    ("panel1_voltage", PyVal.vnum 0) ∈ create_measurement_point (buildInfluxData env) ∧
    ("panel1_current", PyVal.vnum 0) ∈ create_measurement_point (buildInfluxData env) ∧
    ("panel1_power", PyVal.vnum 0) ∈ create_measurement_point (buildInfluxData env) ∧
    ("panel1_energy", PyVal.vnum 0) ∈ create_measurement_point (buildInfluxData env) := by
  have hmem : ∀ k fname (isT : Bool), (k, fname, isT) ∈ pointKeyTable →
      lookupKey k (buildInfluxData env) = some (PyVal.vnum 0) →
      (fname, PyVal.vnum 0) ∈ create_measurement_point (buildInfluxData env) := by
    intro k fname isT hk hl
    unfold create_measurement_point
    refine List.mem_flatMap.mpr ⟨(k, fname, isT), hk, ?_⟩
    cases isT <;> simp [fieldEntries, hl]
  refine ⟨hmem "v0" "panel1_voltage" false (by decide) ?_,
          hmem "i0" "panel1_current" false (by decide) ?_,
          hmem "p0" "panel1_power" false (by decide) ?_,
          hmem "e0" "panel1_energy" false (by decide) ?_⟩ <;>
    simp [buildInfluxData, lookupKey, h, validate_ina228_data, inaDefaultValues]

/-- Claim C5 (amended): in a cycle where every attempt to read power meter 1
fails, the CSV row is still written, with zeros in that meter's
voltage/current/power/energy columns — but the telemetry point does not omit
the meter's power-related fields: it contains them with the substituted value
`0.0` (the defaults are ordinary zeros, not missing markers). -/
theorem ina_total_failure_row_and_point (env : RecordEnv) (a1 a2 a3 : InaAttempt)
    (s : SendResult)
    (h1 : a1.raises = true) (h2 : a2.raises = true) (h3 : a3.raises = true)
    (henv : env.ina40 = read_ina228 true a1 a2 a3)
    (hwin : is_within_operating_hours OPERATING_START_MINUTES OPERATING_END_MINUTES
      env.nowMinutes = true)
    (hrec : env.file_recording_active = true)
    (hfile : env.current_csv_file ≠ none)
    (hexists : env.file_exists = true) :
    read_ina228 true a1 a2 a3 = some inaDefaultValues ∧
    (buildRow env)[0]? = some (Cell.num 0) ∧
    (buildRow env)[2]? = some (Cell.num 0) ∧
    (buildRow env)[4]? = some (Cell.num 0) ∧
    (buildRow env)[6]? = some (Cell.num 0) ∧
    (record_measurement env s).events.head? = some (REvent.rowWrite (buildRow env)) ∧
    ("panel1_voltage", PyVal.vnum 0) ∈ create_measurement_point (buildInfluxData env) ∧
    ("panel1_current", PyVal.vnum 0) ∈ create_measurement_point (buildInfluxData env) ∧
    ("panel1_power", PyVal.vnum 0) ∈ create_measurement_point (buildInfluxData env) ∧
    ("panel1_energy", PyVal.vnum 0) ∈ create_measurement_point (buildInfluxData env) := by
  have hread := read_ina228_all_fail a1 a2 a3 h1 h2 h3
  have hzero : env.ina40 = some inaDefaultValues := by rw [henv, hread]
  obtain ⟨hm1, hm2, hm3, hm4⟩ := panel1_fields_zero env hzero
  refine ⟨hread, ?_, ?_, ?_, ?_, ?_, hm1, hm2, hm3, hm4⟩
  · simp [buildRow, hzero, validate_ina228_data, inaDefaultValues]
  · simp [buildRow, hzero, validate_ina228_data, inaDefaultValues]
  · simp [buildRow, hzero, validate_ina228_data, inaDefaultValues]
  · simp [buildRow, hzero, validate_ina228_data, inaDefaultValues]
  · unfold record_measurement
    rw [if_neg (by simp [hwin]), if_neg (by simp [hrec, hfile]), if_neg (by simp [hexists])]
    rfl

/-- Concrete cycle for the C5 counterexample: power meter 1 present but all
three read attempts raise; the system is inside the window, recording to an
existing file, with InfluxDB initialised. -/
def cexEnv : RecordEnv where
  nowMinutes := 5 * 60 + 2
  nowStamp := "2024-01-01 05:02:00"
  file_recording_active := true
  current_csv_file := some "/home/pi/Desktop/Mediciones/data_20240101_050000.csv"
  ina40 := read_ina228 true failingAttempt failingAttempt failingAttempt
  ina41 := read_ina228 true failingAttempt failingAttempt failingAttempt
  irradiance := some 100
  wind_angle := none
  wind_dir := ""
  rain_count := 0
  dht_temps := []
  dht_hums := []
  wind_speeds := []
  therm_bufs := fun _ => []
  file_exists := true
  create_ok := true
  influx_initialized := true

/-- Witness for C5's amended statement at the concrete failing cycle. -/
theorem ina_total_failure_row_and_point_witness :
    read_ina228 true failingAttempt failingAttempt failingAttempt = some inaDefaultValues :=
  (ina_total_failure_row_and_point cexEnv failingAttempt failingAttempt failingAttempt
    (SendResult.sent true) rfl rfl rfl rfl (by decide) rfl (by decide) rfl).1

/-- Claim C5 counterexample: with meter 1's reads all failing, the forwarded
point does not omit the meter's fields — it contains `panel1_voltage` (value
`0.0`), refuting "the telemetry point forwarded for that cycle omits that
meter's power-related fields". -/
theorem ina_failure_point_not_omitted_cex :
    read_ina228 true failingAttempt failingAttempt failingAttempt = some inaDefaultValues ∧
    ("panel1_voltage", PyVal.vnum 0) ∈ create_measurement_point (buildInfluxData cexEnv) ∧
    ¬ (∀ v, ("panel1_voltage", v) ∉ create_measurement_point (buildInfluxData cexEnv)) := by
  have hread : read_ina228 true failingAttempt failingAttempt failingAttempt =
      some inaDefaultValues := by
    simp [read_ina228, read_ina228_loop, failingAttempt]
  have hzero : cexEnv.ina40 = some inaDefaultValues := hread
  have hm := (panel1_fields_zero cexEnv hzero).1
  exact ⟨hread, hm, fun hall => hall (PyVal.vnum 0) hm⟩

/-!
## Multiplexed sensor reads (claim C9)

The three readers that share the analog channel are embedded with
`Except`-shaped results and oracles for the hardware primitives.
`get_wind_direction_internal` (implementacion.py:595) and
`read_irradiance_internal` (implementacion.py:815) wrap their bodies in a
`try/except` returning `(None, None)` resp. `(0.0, 0.0)`;
`read_thermistors_internal` (implementacion.py:647) guards each channel
individually (a raise yields a NaN entry, a failed `set_mux_channel` skips the
channel).  The Steinhart–Hart conversion
(`calculate_resistance`/`calculate_temperature`) uses `math.log` and is not
rational-computable; it is abstracted as a conversion parameter `conv`, which
the error-handling claims do not depend on.
-/

/-- `R_REF = 10000` (wind-vane divider reference resistor). -/
def R_REF : ℚ := 10000

/-- `DIRECTION_TABLE` (implementacion.py:131): nominal resistance per vane
angle, in source order. -/
def DIRECTION_TABLE : List (ℚ × ℚ) :=
  [(0, 33000), (22.5, 6570), (45, 8200), (67.5, 891), (90, 1000), (112.5, 688),
   (135, 2200), (157.5, 1410), (180, 3900), (202.5, 3140), (225, 16000),
   (247.5, 14120), (270, 120000), (292.5, 42120), (315, 64900), (337.5, 21880)]

/-- `COMPASS` (implementacion.py:150): compass label per vane angle. -/
def COMPASS : List (ℚ × String) :=
  [(0, "N"), (22.5, "NNE"), (45, "NE"), (67.5, "ENE"), (90, "E"), (112.5, "ESE"),
   (135, "SE"), (157.5, "SSE"), (180, "S"), (202.5, "SSW"), (225, "SW"),
   (247.5, "WSW"), (270, "W"), (292.5, "WNW"), (315, "NW"), (337.5, "NNW")]

/-- `COMPASS.get(angle, "")`. -/
def compassGet (angle : ℚ) : String :=
  match COMPASS.lookup angle with
  | some s => s
  | none => ""

/-- `DIRECTION_TABLE[closest_angle]` (the angle always comes from the table;
`0` as an out-of-table default). -/
def directionResistance (angle : ℚ) : ℚ :=
  match DIRECTION_TABLE.lookup angle with
  | some r => r
  | none => 0

/-- The closest-angle scan of `get_wind_direction_internal`: fold over the
table keeping the angle with the smallest absolute error (`none` plays
`math.inf` before the first iteration). -/
def closestDirFold (resistance : ℚ) : Option ℚ × Option ℚ :=
  DIRECTION_TABLE.foldl
    (fun acc p =>
      let error := |p.2 - resistance|
      match acc.2 with
      | none => (some p.1, some error)
      | some smallest => if error < smallest then (some p.1, some error) else acc)
    (none, none)

/-- Primitive outcomes for one wind-direction read: whether the ADC objects
exist (`ads is None or len(adc_channels) < 4`) and the channel-3 voltage read
(which may raise, or yield `None`). -/
structure WindDirOracle where
  adsReady : Bool
  voltage : Except Unit (Option ℚ)

/-- `get_wind_direction_internal`: table scan with a 15 % tolerance; every
failure path — raise, `None` or non-positive voltage, a saturated divider
(Python's `ZeroDivisionError` at 3.3 V, caught by the `except`), or an
out-of-tolerance match — yields the missing pair `(None, None)`. -/
def get_wind_direction_internal (o : WindDirOracle) : Except Unit (Option ℚ × Option String) :=
  if o.adsReady = false then .ok (none, none)
  else
    match o.voltage with
    | .error _ => .ok (none, none)
    | .ok none => .ok (none, none)
    | .ok (some v) =>
      if v ≤ 0 then .ok (none, none)
      else if v = 33 / 10 then .ok (none, none)
      else
        let resistance := R_REF * v / (33 / 10 - v)
        match closestDirFold resistance with
        | (some ca, some se) =>
          if se ≤ directionResistance ca * (15 / 100) then
            .ok (some ca, some (compassGet ca))
          else .ok (none, none)
        | _ => .ok (none, none)

/-- Primitive outcomes for one thermistor channel: the `set_mux_channel`
result and the ADC voltage read. -/
structure ThermChannelOracle where
  muxOk : Bool
  voltage : Except Unit ℚ

/-- One channel of `read_thermistors_internal`: a failed mux switch skips the
channel entirely; a raising voltage read stores NaN; otherwise the converted
temperature is stored. -/
def thermChannelRead (conv : Nat → ℚ → PyVal) (i : Nat) (o : ThermChannelOracle) :
    List (String × PyVal) :=
  if o.muxOk then
    match o.voltage with
    | .ok v => [(thermKey i, conv i v)]
    | .error _ => [(thermKey i, .vnan)]
  else []

/-- `read_thermistors_internal`: the `temperatures` dict over the twenty
channels (empty when the ADC objects are absent). -/
def read_thermistors_internal (conv : Nat → ℚ → PyVal) (adsReady : Bool)
    (oracles : Nat → ThermChannelOracle) : Except Unit (List (String × PyVal)) :=
  if adsReady = false then .ok []
  else .ok ((List.range 20).flatMap fun i => thermChannelRead conv i (oracles i))

/-- Primitive outcomes for one irradiance read: ADC readiness, the two mux
switches and the two channel voltages. -/
structure IrradianceOracle where
  adsReady : Bool
  mux4Ok : Bool
  voltageMinus : Except Unit (Option ℚ)
  mux5Ok : Bool
  voltagePlus : Except Unit (Option ℚ)

/-- `IRRADIANCE_CALIBRATION_FACTOR = 1000.0 / 75.0`. -/
def IRRADIANCE_CALIBRATION_FACTOR : ℚ := 1000 / 75

/-- `read_irradiance_internal`: differential read over mux channels 4/5; every
failure path returns the numeric pair `(0.0, 0.0)` (a `None` voltage is
coerced to `0.0`). -/
def read_irradiance_internal (o : IrradianceOracle) : Except Unit (ℚ × ℚ) :=
  if o.adsReady = false then .ok (0, 0)
  else if o.mux4Ok = false then .ok (0, 0)
  else
    match o.voltageMinus with
    | .error _ => .ok (0, 0)
    | .ok vm =>
      let voltage_minus := vm.getD 0
      if o.mux5Ok = false then .ok (0, 0)
      else
        match o.voltagePlus with
        | .error _ => .ok (0, 0)
        | .ok vp =>
          let voltage_plus := vp.getD 0
          let irradiance_voltage := |voltage_plus - voltage_minus|
          let irradiance_voltage_mV := |irradiance_voltage * 1000|
          .ok (irradiance_voltage_mV, irradiance_voltage_mV * IRRADIANCE_CALIBRATION_FACTOR)

/-- Claim C9 (amended): none of the three multiplexed readers ever raises to
its caller; on an underlying read error the wind-direction read returns the
missing pair `(None, None)` and a raising thermistor channel stores the
missing marker NaN (a failed mux switch omits the channel) — but the
irradiance read substitutes the numeric pair `(0.0, 0.0)`, which is not a
missing marker. -/
theorem multiplexed_reads_never_raise (conv : Nat → ℚ → PyVal) (adsReady : Bool)
    (wo : WindDirOracle) (tco : Nat → ThermChannelOracle) (io : IrradianceOracle)
    (i : Nat) :
    (∃ r, get_wind_direction_internal wo = .ok r) ∧
    (∃ r, read_thermistors_internal conv adsReady tco = .ok r) ∧
    (∃ r, read_irradiance_internal io = .ok r) ∧
    ((∃ e, wo.voltage = .error e) → get_wind_direction_internal wo = .ok (none, none)) ∧
    ((tco i).muxOk = true → (∃ e, (tco i).voltage = .error e) →
      thermChannelRead conv i (tco i) = [(thermKey i, PyVal.vnan)] ∧
      isMissingMarker PyVal.vnan = true) ∧
    (io.adsReady = true → io.mux4Ok = false →
      read_irradiance_internal io = .ok (0, 0) ∧ isMissingMarker (PyVal.vnum 0) = false) := by
  refine ⟨?_, ?_, ?_, ?_, ?_, ?_⟩
  · unfold get_wind_direction_internal
    dsimp only
    repeat' split
    all_goals exact ⟨_, rfl⟩
  · unfold read_thermistors_internal
    split
    · exact ⟨_, rfl⟩
    · exact ⟨_, rfl⟩
  · unfold read_irradiance_internal
    repeat' split
    all_goals exact ⟨_, rfl⟩
  · rintro ⟨e, he⟩
    unfold get_wind_direction_internal
    rw [he]
    split <;> rfl
  · rintro hmux ⟨e, he⟩
    unfold thermChannelRead
    rw [hmux, he]
    exact ⟨rfl, rfl⟩
  · intro hads hmux
    unfold read_irradiance_internal
    rw [hads, hmux]
    exact ⟨rfl, rfl⟩

/-- Witness for C9's amended statement: a raising wind-vane voltage read
yields the missing pair. -/
theorem multiplexed_reads_never_raise_witness :
    get_wind_direction_internal ⟨true, .error ()⟩ = .ok (none, none) :=
  (multiplexed_reads_never_raise (fun _ _ => PyVal.vnan) true ⟨true, .error ()⟩
    (fun _ => ⟨true, .error ()⟩) ⟨true, true, .ok none, true, .ok none⟩ 0).2.2.2.1
    ⟨(), rfl⟩

/-- Claim C9 counterexample: an irradiance read whose first mux switch fails
returns the numeric pair `(0.0, 0.0)` — an ordinary zero, not a missing
marker — refuting "an underlying read error causes the function to return a
missing sample value" for the irradiance reader. -/
theorem irradiance_error_zero_not_missing_cex :
    read_irradiance_internal ⟨true, false, .ok none, true, .ok none⟩ = .ok (0, 0) ∧
    isMissingMarker (PyVal.vnum 0) = false :=
  ⟨rfl, rfl⟩

/-!
## Startup recovery (claim C2)

`should_continue_with_existing_file` (implementacion.py:968) checks the loaded
checkpoint dict; `initialize_system_with_enhanced_recovery`
(implementacion.py:1117) resumes the checkpointed file when it accepts, and
otherwise resets the globals and takes the
`check_and_create_missing_file` directory-scan / fresh-file path (abstracted
to its boolean outcome).  The file system is an oracle: existence per path and
the (stripped) first line of a file, whose read may raise.  The header check
of the source is `"DateTime" in first_line` — a substring test, not equality
with the full header written by `create_csv_file`.
-/

/-- The checkpoint fields recovery consults (a JSON dict: every field may be
absent). -/
structure SavedState where
  current_day : Option Int
  current_year : Option Int
  current_csv_file : Option String
  file_recording_active : Option Bool
deriving DecidableEq

/-- The environment of one recovery attempt: today's calendar day-of-year and
year, the wall-clock minute of day, and the file-system oracle. -/
structure RecoveryEnv where
  today_day : Int
  today_year : Int
  nowMinutes : Nat
  fileExists : String → Bool
  firstLine : String → Except Unit String

/-- The header row `create_csv_file` (implementacion.py:1288) writes, as its
comma-joined first line. -/
def expectedHeaderCols : List String :=
  ["V0[V]", "V1[V]", "I0[A]", "I1[A]", "P0[W]", "P1[W]", "E0[Wh]", "E1[Wh]", "Irr[W/m2]",
   "T0[°C]", "T1[°C]", "T2[°C]", "T3[°C]", "T4[°C]", "T5[°C]", "T6[°C]", "T7[°C]",
   "T8[°C]", "T9[°C]", "T10[°C]", "T11[°C]", "T12[°C]", "T13[°C]", "T14[°C]",
   "T15[°C]", "T16[°C]", "T17[°C]", "T18[°C]", "T19[°C]",
   "Rain[mm]", "Wind_Speed[m/s]", "Wind_Direction", "DHT_HUM[%]", "DHT_TEMP[°C]", "DateTime"]

/-- The expected first line of a daily file. -/
def expectedHeader : String := String.intercalate "," expectedHeaderCols

/-- Whether `needle` begins `hay` (character lists). -/
def charsBeginWith : List Char → List Char → Bool
  | [], _ => true
  | _ :: _, [] => false
  | a :: as, b :: bs => a == b && charsBeginWith as bs

/-- Whether `needle` occurs somewhere in the character list. -/
def charsContain (needle : List Char) : List Char → Bool
  | [] => needle.isEmpty
  | c :: rest => charsBeginWith needle (c :: rest) || charsContain needle rest

/-- Python's `needle in hay` on strings. -/
def hasSubstr (needle hay : String) : Bool :=
  charsContain needle.toList hay.toList

/-- `should_continue_with_existing_file`: accept the checkpoint and return its
file only when the stored day and year are today's, the wall time is inside
the operating window, the stored path names an existing file whose first line
is nonempty and contains `"DateTime"`, and the stored recording flag was
true. -/
def should_continue_with_existing_file (state : Option SavedState) (env : RecoveryEnv) :
    Bool × Option String :=
  match state with
  | none => (false, none)
  | some st =>
    if st.current_day ≠ some env.today_day ∨ st.current_year ≠ some env.today_year then
      (false, none)
    else if is_within_operating_hours OPERATING_START_MINUTES OPERATING_END_MINUTES
        env.nowMinutes = false then (false, none)
    else
      match st.current_csv_file with
      | none => (false, none)
      | some f =>
        if f = "" ∨ env.fileExists f = false then (false, none)
        else
          match env.firstLine f with
          | .error _ => (false, none)
          | .ok line =>
            if line = "" ∨ hasSubstr "DateTime" line = false then (false, none)
            else if st.file_recording_active.getD false then (true, some f)
            else (false, none)

/-- What startup recovery did: resumed the checkpointed file (entering
Recording — the acceptance already required being inside the window), or
discarded the checkpoint and took the directory-scan / fresh-file creation
path (its success abstracted to a boolean). -/
inductive RecoveryOutcome where
  | resumed : String → RecoveryOutcome
  | fallback : Bool → RecoveryOutcome
deriving DecidableEq

/-- `initialize_system_with_enhanced_recovery`. -/
def initialize_system_with_enhanced_recovery (state : Option SavedState) (env : RecoveryEnv)
    (fallbackOk : Bool) : RecoveryOutcome :=
  match should_continue_with_existing_file state env with
  | (true, some f) => .resumed f
  | _ => .fallback fallbackOk

/-- The acceptance result is either the rejection pair or a resumed file. -/
theorem should_continue_shape (state : Option SavedState) (env : RecoveryEnv) :
    should_continue_with_existing_file state env = (false, none) ∨
    ∃ f, should_continue_with_existing_file state env = (true, some f) := by
  unfold should_continue_with_existing_file
  rcases state with _ | st
  · exact Or.inl rfl
  · dsimp only
    repeat' split
    all_goals first
      | exact Or.inl rfl
      | exact Or.inr ⟨_, rfl⟩

/-- Claim C2 (amended): startup recovery resumes the checkpointed file iff the
checkpoint's stored calendar day and year equal today's, the current wall time
is inside the operating window, the checkpointed path is nonempty and names an
existing file whose readable first line is nonempty and contains the substring
`"DateTime"` (a weaker check than matching the expected header), and the
checkpoint's recording flag was stored true; when any condition fails the
checkpoint is discarded and the directory-scan / fresh-file path is taken. -/
theorem recovery_resume_conditions (state : Option SavedState) (env : RecoveryEnv)
    (fallbackOk : Bool) :
    ((should_continue_with_existing_file state env).1 = true ↔
      ∃ st f, state = some st ∧
        st.current_day = some env.today_day ∧ st.current_year = some env.today_year ∧
        is_within_operating_hours OPERATING_START_MINUTES OPERATING_END_MINUTES
          env.nowMinutes = true ∧
        st.current_csv_file = some f ∧ f ≠ "" ∧ env.fileExists f = true ∧
        (∃ line, env.firstLine f = .ok line ∧ line ≠ "" ∧ hasSubstr "DateTime" line = true) ∧
        st.file_recording_active = some true) ∧
    (∀ f, should_continue_with_existing_file state env = (true, some f) →
      initialize_system_with_enhanced_recovery state env fallbackOk = .resumed f) ∧
    ((should_continue_with_existing_file state env).1 = false →
      initialize_system_with_enhanced_recovery state env fallbackOk = .fallback fallbackOk) := by
  refine ⟨⟨?_, ?_⟩, ?_, ?_⟩
  · intro h
    rcases state with _ | st
    · exact absurd h (by simp [should_continue_with_existing_file])
    · unfold should_continue_with_existing_file at h
      dsimp only at h
      split at h
      · exact absurd h (by simp)
      · rename_i hday
        push_neg at hday
        split at h
        · exact absurd h (by simp)
        · rename_i hwin
          rw [Bool.not_eq_false] at hwin
          split at h
          · exact absurd h (by simp)
          · rename_i f hfile
            split at h
            · exact absurd h (by simp)
            · rename_i hfok
              push_neg at hfok
              simp only [ne_eq, Bool.not_eq_false] at hfok
              split at h
              · exact absurd h (by simp)
              · rename_i line hline
                split at h
                · exact absurd h (by simp)
                · rename_i hlok
                  push_neg at hlok
                  simp only [ne_eq, Bool.not_eq_false] at hlok
                  split at h
                  · rename_i hrec
                    refine ⟨st, f, rfl, hday.1, hday.2, hwin, hfile, hfok.1, hfok.2,
                      ⟨line, hline, hlok.1, hlok.2⟩, ?_⟩
                    rcases hra : st.file_recording_active with _ | b
                    · rw [hra] at hrec; simp [Option.getD] at hrec
                    · rw [hra] at hrec
                      cases b
                      · simp [Option.getD] at hrec
                      · rfl
                  · exact absurd h (by simp)
  · rintro ⟨st, f, rfl, hday, hyear, hwin, hfile, hfne, hex, ⟨line, hline, hlne, hsub⟩, hrec⟩
    unfold should_continue_with_existing_file
    dsimp only
    rw [if_neg (by simp [hday, hyear])]
    rw [if_neg (by simp [hwin])]
    rw [hfile]
    dsimp only
    rw [if_neg (by simp [hfne, hex])]
    rw [hline]
    dsimp only
    rw [if_neg (by simp [hlne, hsub])]
    rw [if_pos (by simp [hrec])]
  · intro f hf
    unfold initialize_system_with_enhanced_recovery
    rw [hf]
  · intro h
    unfold initialize_system_with_enhanced_recovery
    rcases should_continue_shape state env with hs | ⟨f, hs⟩
    · rw [hs]
    · rw [hs] at h
      exact absurd h (by simp)

set_option maxRecDepth 8000 in
/-- Recovery-acceptance witness for C2: a same-day checkpoint with recording
true, inside the window, over a file whose first line is the full expected
header, is resumed. -/
theorem recovery_resume_conditions_witness :
    (should_continue_with_existing_file
      (some ⟨some 200, some 2025, some "/g.csv", some true⟩)
      ⟨200, 2025, 600, fun p => p == "/g.csv", fun _ => .ok expectedHeader⟩).1 = true :=
  (recovery_resume_conditions
    (some ⟨some 200, some 2025, some "/g.csv", some true⟩)
    ⟨200, 2025, 600, fun p => p == "/g.csv", fun _ => .ok expectedHeader⟩ true).1.mpr
    ⟨⟨some 200, some 2025, some "/g.csv", some true⟩, "/g.csv", rfl, rfl, rfl,
      by decide, rfl, by decide, by decide,
      ⟨expectedHeader, rfl, by decide, by decide⟩, rfl⟩

set_option maxRecDepth 8000 in
/-- Claim C2 counterexample: a checkpoint whose file's first line is just
`"DateTime"` — not the expected header — is still accepted and resumed, so
"the checkpointed CSV file's first line matches the expected header" is not a
necessary condition for resuming. -/
theorem recovery_accepts_nonheader_first_line_cex :
    (should_continue_with_existing_file
      (some ⟨some 100, some 2024, some "/f.csv", some true⟩)
      ⟨100, 2024, 600, fun p => p == "/f.csv", fun _ => .ok "DateTime"⟩) =
      (true, some "/f.csv") ∧
    initialize_system_with_enhanced_recovery
      (some ⟨some 100, some 2024, some "/f.csv", some true⟩)
      ⟨100, 2024, 600, fun p => p == "/f.csv", fun _ => .ok "DateTime"⟩ true =
      .resumed "/f.csv" ∧
    "DateTime" ≠ expectedHeader := by
  refine ⟨by decide, by decide, by decide⟩

/-!
## The scheduler loop (claim C1)

One iteration of `main`'s `while True` body (implementacion.py:1698–1778) on
its normal (non-raising) path, restricted to the state that governs the
measurement trigger: the loop-local `last_minute_processed` /
`last_hour_processed` and the globals `last_measurement_minute` /
`last_file_creation_day`.  Each tick carries the wall clock reading
(`datetime.now()` of the iteration) and the oracle outcomes: whether
`record_measurement` succeeded, whether `create_csv_file` succeeded, and
whether the five-minutely `enhanced_main_loop_check` adopted an existing file
(its only effect on this state is `last_file_creation_day = today`,
implementacion.py:1093).  The branch order of the source is kept: the
periodic file check, then the `if`/`elif` chain (daily-file creation at the
window-start minute, end of day, else the measurement trigger guarded by
`now.second < 5`), and at the end of the iteration the hour rollover that
resets `last_minute_processed`.
-/

/-- The trigger-relevant loop state (`-1` sentinels as in the source). -/
structure SchedState where
  last_minute_processed : Int
  last_measurement_minute : Int
  last_hour_processed : Int
  last_file_creation_day : Int
deriving DecidableEq

/-- The initial state of a fresh `main` run. -/
def schedInit : SchedState := ⟨-1, -1, -1, -1⟩

/-- One iteration's wall clock (`tm_yday`, hour, minute, second) and oracle
outcomes. -/
structure SchedTick where
  day : Nat
  hour : Nat
  minute : Nat
  second : Nat
  recordOk : Bool
  createOk : Bool
  fileCheckAdopt : Bool
deriving DecidableEq

/-- `is_time_to_create_daily_file` (implementacion.py:255) at the parsed
window start "05:00". -/
def is_time_to_create_daily_file (t : SchedTick) : Bool :=
  t.hour == 5 && t.minute == 0

/-- `is_end_of_day` (implementacion.py:270) at the parsed window end
"18:00". -/
def is_end_of_day (t : SchedTick) : Bool :=
  t.hour == 18 && t.minute == 0

/-- The five-minutely `enhanced_main_loop_check`: adopting an existing
same-day file sets `last_file_creation_day` to today. -/
def schedAdopt (s : SchedState) (t : SchedTick) : SchedState :=
  if t.fileCheckAdopt then { s with last_file_creation_day := (t.day : Int) } else s

/-- The `if`/`elif` chain of one iteration; the boolean is whether
`record_measurement` was called (the trigger). -/
def schedBranch (s : SchedState) (t : SchedTick) : SchedState × Bool :=
  if is_time_to_create_daily_file t = true ∧ (t.day : Int) ≠ s.last_file_creation_day then
    (if t.createOk then
       { s with last_file_creation_day := (t.day : Int), last_measurement_minute := -1 }
     else s, false)
  else if is_end_of_day t = true then (s, false)
  else if (t.minute : Int) ≠ s.last_measurement_minute ∧
      (t.minute : Int) ≠ s.last_minute_processed then
    if t.second < 5 then
      ({ s with last_minute_processed := (t.minute : Int),
                last_measurement_minute :=
                  if t.recordOk then (t.minute : Int) else s.last_measurement_minute },
       true)
    else (s, false)
  else (s, false)

/-- The end-of-iteration hour rollover: a new hour clears
`last_minute_processed`. -/
def schedHourReset (s : SchedState) (t : SchedTick) : SchedState :=
  if (t.hour : Int) ≠ s.last_hour_processed then
    { s with last_minute_processed := -1, last_hour_processed := (t.hour : Int) }
  else s

/-- One full loop iteration. -/
def schedStep (s : SchedState) (t : SchedTick) : SchedState × Bool :=
  let sb := schedBranch (schedAdopt s t) t
  (schedHourReset sb.1 t, sb.2)

/-- The loop state after a sequence of iterations. -/
def runSched (s : SchedState) : List SchedTick → SchedState
  | [] => s
  | t :: ts => runSched (schedStep s t).1 ts

/-- How many iterations of the sequence triggered `record_measurement`. -/
def countTriggers (s : SchedState) : List SchedTick → Nat
  | [] => 0
  | t :: ts => (if (schedStep s t).2 then 1 else 0) + countTriggers (schedStep s t).1 ts

/-- The tick lies in the calendar minute (d, h, m). -/
def inMinute (d h m : Nat) (t : SchedTick) : Prop :=
  t.day = d ∧ t.hour = h ∧ t.minute = m

instance (d h m : Nat) (t : SchedTick) : Decidable (inMinute d h m t) :=
  inferInstanceAs (Decidable (_ ∧ _ ∧ _))

/-- After any iteration the hour rollover guarantees
`last_hour_processed = the tick's hour`. -/
theorem schedStep_hour (s : SchedState) (t : SchedTick) :
    ((schedStep s t).1).last_hour_processed = (t.hour : Int) := by
  unfold schedStep schedHourReset
  dsimp only
  split
  · rfl
  · rename_i hne
    rw [not_ne_iff] at hne
    exact hne.symm

/-- `schedAdopt` only touches `last_file_creation_day`. -/
theorem schedAdopt_fields (s : SchedState) (t : SchedTick) :
    (schedAdopt s t).last_minute_processed = s.last_minute_processed ∧
    (schedAdopt s t).last_measurement_minute = s.last_measurement_minute ∧
    (schedAdopt s t).last_hour_processed = s.last_hour_processed ∧
    ((schedAdopt s t).last_file_creation_day = s.last_file_creation_day ∨
      (schedAdopt s t).last_file_creation_day = (t.day : Int)) := by
  unfold schedAdopt
  split
  · exact ⟨rfl, rfl, rfl, Or.inr rfl⟩
  · exact ⟨rfl, rfl, rfl, Or.inl rfl⟩

/-- `schedHourReset` only touches `last_minute_processed` and
`last_hour_processed`. -/
theorem schedHourReset_fields (s : SchedState) (t : SchedTick) :
    (schedHourReset s t).last_measurement_minute = s.last_measurement_minute ∧
    (schedHourReset s t).last_file_creation_day = s.last_file_creation_day := by
  unfold schedHourReset
  split
  · exact ⟨rfl, rfl⟩
  · exact ⟨rfl, rfl⟩

/-- When the iteration's hour was already processed, the rollover is a
no-op. -/
theorem schedHourReset_noop {s : SchedState} {t : SchedTick}
    (h : s.last_hour_processed = (t.hour : Int)) :
    schedHourReset s t = s := by
  unfold schedHourReset
  rw [if_neg (by rw [h]; exact fun hc => hc rfl)]

/-- What a triggering branch did: it stamped `last_minute_processed` with the
minute, stamped `last_measurement_minute` only on success, left the other
fields alone, was not in the daily-creation or end-of-day branch, and saw a
second below 5. -/
theorem schedBranch_trigger {s : SchedState} {t : SchedTick}
    (h : (schedBranch s t).2 = true) :
    (schedBranch s t).1.last_minute_processed = (t.minute : Int) ∧
    (schedBranch s t).1.last_hour_processed = s.last_hour_processed ∧
    (schedBranch s t).1.last_file_creation_day = s.last_file_creation_day ∧
    (schedBranch s t).1.last_measurement_minute =
      (if t.recordOk then (t.minute : Int) else s.last_measurement_minute) ∧
    ¬(is_time_to_create_daily_file t = true ∧ (t.day : Int) ≠ s.last_file_creation_day) ∧
    t.second < 5 := by
  revert h
  unfold schedBranch
  split
  · intro h
    simp at h
  · rename_i hc
    split
    · intro h
      simp at h
    · split
      · split
        · rename_i hsec
          intro _
          exact ⟨rfl, rfl, rfl, rfl, hc, hsec⟩
        · intro h
          simp at h
      · intro h
        simp at h

/-- A branch whose minute equals `last_measurement_minute` and whose
daily-creation condition fails does nothing at all. -/
theorem schedBranch_stall {s : SchedState} {t : SchedTick}
    (hlmm : s.last_measurement_minute = (t.minute : Int))
    (hcreate : ¬(is_time_to_create_daily_file t = true ∧
      (t.day : Int) ≠ s.last_file_creation_day)) :
    schedBranch s t = (s, false) := by
  unfold schedBranch
  rw [if_neg hcreate]
  split
  · rfl
  · rw [if_neg (by simp [hlmm])]

/-- A branch whose minute equals `last_minute_processed` never triggers and
preserves `last_minute_processed` and `last_hour_processed`. -/
theorem schedBranch_no_trigger_of_lmp {s : SchedState} {t : SchedTick}
    (hlmp : s.last_minute_processed = (t.minute : Int)) :
    (schedBranch s t).2 = false ∧
    (schedBranch s t).1.last_minute_processed = s.last_minute_processed ∧
    (schedBranch s t).1.last_hour_processed = s.last_hour_processed := by
  unfold schedBranch
  split
  · split
    · exact ⟨rfl, rfl, rfl⟩
    · exact ⟨rfl, rfl, rfl⟩
  · split
    · exact ⟨rfl, rfl, rfl⟩
    · split
      · rename_i hg
        exact absurd hlmp.symm hg.2
      · exact ⟨rfl, rfl, rfl⟩

/-- Once `last_measurement_minute` equals the current minute (and, at the
window-start minute, the daily file was already created today), no later
iteration of the same calendar minute triggers a measurement. -/
theorem countTriggers_zero_of_lmm (d h m : Nat) :
    ∀ ts : List SchedTick, (∀ t ∈ ts, inMinute d h m t) →
    ∀ s : SchedState, s.last_measurement_minute = (m : Int) →
    ((h = 5 ∧ m = 0) → s.last_file_creation_day = (d : Int)) →
    countTriggers s ts = 0 := by
  intro ts
  induction ts with
  | nil =>
    intro _ s _ _
    rfl
  | cons t rest ih =>
    intro hts s hlmm hlfcd
    obtain ⟨htd, hth, htm⟩ := hts t (List.mem_cons_self t rest)
    obtain ⟨ha1, ha2, ha3, ha4⟩ := schedAdopt_fields s t
    have hlmm1 : (schedAdopt s t).last_measurement_minute = (t.minute : Int) := by
      rw [ha2, hlmm, htm]
    have hlfcd1 : (h = 5 ∧ m = 0) → (schedAdopt s t).last_file_creation_day = (d : Int) := by
      intro h50
      rcases ha4 with h4 | h4
      · rw [h4]
        exact hlfcd h50
      · rw [h4, htd]
    have hcreate : ¬(is_time_to_create_daily_file t = true ∧
        (t.day : Int) ≠ (schedAdopt s t).last_file_creation_day) := by
      rintro ⟨hic, hne⟩
      have h50 : h = 5 ∧ m = 0 := by
        simp only [is_time_to_create_daily_file, Bool.and_eq_true, beq_iff_eq] at hic
        rw [hth] at hic
        rw [htm] at hic
        exact hic
      rw [hlfcd1 h50, htd] at hne
      exact hne rfl
    have hbranch : schedBranch (schedAdopt s t) t = (schedAdopt s t, false) :=
      schedBranch_stall hlmm1 hcreate
    have hstep : schedStep s t = (schedHourReset (schedAdopt s t) t, false) := by
      unfold schedStep
      rw [hbranch]
    obtain ⟨hr1, hr2⟩ := schedHourReset_fields (schedAdopt s t) t
    have hcount : countTriggers s (t :: rest) =
        (if (schedStep s t).2 then 1 else 0) + countTriggers (schedStep s t).1 rest := rfl
    rw [hcount, hstep]
    simp only [if_neg (by simp : ¬ false = true)]
    have := ih (fun u hu => hts u (List.mem_cons_of_mem t hu))
      (schedHourReset (schedAdopt s t) t)
      (by rw [hr1, hlmm1, htm]) (fun h50 => by rw [hr2]; exact hlfcd1 h50)
    omega

/-- Once `last_minute_processed` equals the current minute and the iteration's
hour was already processed, no later iteration of the same calendar minute
triggers a measurement. -/
theorem countTriggers_zero_of_lmp (d h m : Nat) :
    ∀ ts : List SchedTick, (∀ t ∈ ts, inMinute d h m t) →
    ∀ s : SchedState, s.last_hour_processed = (h : Int) →
    s.last_minute_processed = (m : Int) →
    countTriggers s ts = 0 := by
  intro ts
  induction ts with
  | nil =>
    intro _ s _ _
    rfl
  | cons t rest ih =>
    intro hts s hlhp hlmp
    obtain ⟨htd, hth, htm⟩ := hts t (List.mem_cons_self t rest)
    obtain ⟨ha1, ha2, ha3, ha4⟩ := schedAdopt_fields s t
    have hlmp1 : (schedAdopt s t).last_minute_processed = (t.minute : Int) := by
      rw [ha1, hlmp, htm]
    obtain ⟨hb1, hb2, hb3⟩ := schedBranch_no_trigger_of_lmp hlmp1
    have hlhpb : (schedBranch (schedAdopt s t) t).1.last_hour_processed = (t.hour : Int) := by
      rw [hb3, ha3, hlhp, hth]
    have hnoop : schedHourReset (schedBranch (schedAdopt s t) t).1 t =
        (schedBranch (schedAdopt s t) t).1 := schedHourReset_noop hlhpb
    have hcount : countTriggers s (t :: rest) =
        (if (schedStep s t).2 then 1 else 0) + countTriggers (schedStep s t).1 rest := rfl
    have hstep1 : (schedStep s t).1 = (schedBranch (schedAdopt s t) t).1 := by
      unfold schedStep
      dsimp only
      rw [hnoop]
    have hstep2 : (schedStep s t).2 = false := hb1
    rw [hcount, hstep1, hstep2]
    simp only [if_neg (by simp : ¬ false = true)]
    have := ih (fun u hu => hts u (List.mem_cons_of_mem t hu))
      (schedBranch (schedAdopt s t) t).1
      (by rw [hlhpb, hth]) (by rw [hb2, hlmp1, htm])
    omega

/-- Entering a calendar minute with its hour already processed, at most one
iteration of that minute triggers. -/
theorem countTriggers_le_one_of_lhp (d h m : Nat) :
    ∀ ts : List SchedTick, (∀ t ∈ ts, inMinute d h m t) →
    ∀ s : SchedState, s.last_hour_processed = (h : Int) →
    countTriggers s ts ≤ 1 := by
  intro ts
  induction ts with
  | nil =>
    intro _ s _
    exact Nat.zero_le 1
  | cons t rest ih =>
    intro hts s hlhp
    obtain ⟨htd, hth, htm⟩ := hts t (List.mem_cons_self t rest)
    obtain ⟨ha1, ha2, ha3, ha4⟩ := schedAdopt_fields s t
    have hcount : countTriggers s (t :: rest) =
        (if (schedStep s t).2 then 1 else 0) + countTriggers (schedStep s t).1 rest := rfl
    by_cases htrig : (schedStep s t).2 = true
    · have hbr : (schedBranch (schedAdopt s t) t).2 = true := htrig
      obtain ⟨hm1, hm2, hm3, hm4, hm5, hm6⟩ := schedBranch_trigger hbr
      have hlhpb : (schedBranch (schedAdopt s t) t).1.last_hour_processed = (t.hour : Int) := by
        rw [hm2, ha3, hlhp, hth]
      have hnoop : schedHourReset (schedBranch (schedAdopt s t) t).1 t =
          (schedBranch (schedAdopt s t) t).1 := schedHourReset_noop hlhpb
      have hstep1 : (schedStep s t).1 = (schedBranch (schedAdopt s t) t).1 := by
        unfold schedStep
        dsimp only
        rw [hnoop]
      have hrest : countTriggers (schedStep s t).1 rest = 0 := by
        rw [hstep1]
        exact countTriggers_zero_of_lmp d h m rest
          (fun u hu => hts u (List.mem_cons_of_mem t hu))
          (schedBranch (schedAdopt s t) t).1
          (by rw [hlhpb, hth]) (by rw [hm1, htm])
      rw [hcount, if_pos htrig, hrest]
    · have hrest : countTriggers (schedStep s t).1 rest ≤ 1 :=
        ih (fun u hu => hts u (List.mem_cons_of_mem t hu)) (schedStep s t).1
          (by rw [schedStep_hour, hth])
      rw [hcount, if_neg htrig]
      simpa using hrest

/-- Within any one calendar minute the loop triggers at most twice. -/
theorem countTriggers_le_two (d h m : Nat) (ts : List SchedTick)
    (hts : ∀ t ∈ ts, inMinute d h m t) (s : SchedState) :
    countTriggers s ts ≤ 2 := by
  cases ts with
  | nil => exact Nat.zero_le 2
  | cons t rest =>
    obtain ⟨htd, hth, htm⟩ := hts t (List.mem_cons_self t rest)
    have hcount : countTriggers s (t :: rest) =
        (if (schedStep s t).2 then 1 else 0) + countTriggers (schedStep s t).1 rest := rfl
    have hrest : countTriggers (schedStep s t).1 rest ≤ 1 :=
      countTriggers_le_one_of_lhp d h m rest
        (fun u hu => hts u (List.mem_cons_of_mem t hu)) (schedStep s t).1
        (by rw [schedStep_hour, hth])
    rw [hcount]
    by_cases htrig : (schedStep s t).2 = true
    · rw [if_pos htrig]
      omega
    · rw [if_neg htrig]
      omega

/-- After a triggering iteration whose measurement succeeded, no later
iteration of the same calendar minute triggers again. -/
theorem countTriggers_zero_after_success (d h m : Nat) (s : SchedState) (t : SchedTick)
    (ht : inMinute d h m t) (htrig : (schedStep s t).2 = true) (hrec : t.recordOk = true)
    (ts : List SchedTick) (hts : ∀ u ∈ ts, inMinute d h m u) :
    countTriggers (schedStep s t).1 ts = 0 := by
  obtain ⟨htd, hth, htm⟩ := ht
  have hbr : (schedBranch (schedAdopt s t) t).2 = true := htrig
  obtain ⟨hm1, hm2, hm3, hm4, hm5, hm6⟩ := schedBranch_trigger hbr
  obtain ⟨ha1, ha2, ha3, ha4⟩ := schedAdopt_fields s t
  have hstep1 : (schedStep s t).1 =
      schedHourReset (schedBranch (schedAdopt s t) t).1 t := rfl
  obtain ⟨hr1, hr2⟩ := schedHourReset_fields (schedBranch (schedAdopt s t) t).1 t
  refine countTriggers_zero_of_lmm d h m ts hts (schedStep s t).1 ?_ ?_
  · rw [hstep1, hr1, hm4, if_pos hrec, htm]
  · intro h50
    have hic : is_time_to_create_daily_file t = true := by
      simp only [is_time_to_create_daily_file, Bool.and_eq_true, beq_iff_eq]
      rw [hth, htm]
      exact h50
    have : (t.day : Int) = (schedAdopt s t).last_file_creation_day := by
      by_contra hne
      exact hm5 ⟨hic, hne⟩
    rw [hstep1, hr2, hm3, ← this, htd]

/-- A single cycle appends at most one data row. -/
theorem record_measurement_rows_le_one (env : RecordEnv) (sr : SendResult) :
    (rowsOf (record_measurement env sr).events).length ≤ 1 := by
  rcases record_measurement_event_shape env sr with hs | hs | hs <;>
    rw [hs] <;> simp [rowsOf]

/-- Claim C1 (amended): the scheduler calls `record_measurement` only when the
wall-clock second is below 5 (a late wake within the minute performs no
cycle); within one calendar minute it triggers at most twice, at most once
when the minute is entered with its hour already processed, and never again
after a successful triggered measurement; each triggered cycle appends at most
one data row.  (Two triggers in one minute are possible only when the minute's
first trigger happens in the iteration that first observes a new hour and its
measurement fails: the end-of-iteration hour rollover then clears
`last_minute_processed`.) -/
theorem scheduler_minute_trigger_bounds (d h m : Nat) (s : SchedState)
    (ts : List SchedTick) (hts : ∀ t ∈ ts, inMinute d h m t) :
    (∀ (s' : SchedState) (t' : SchedTick), (schedStep s' t').2 = true → t'.second < 5) ∧
    countTriggers s ts ≤ 2 ∧
    (s.last_hour_processed = (h : Int) → countTriggers s ts ≤ 1) ∧
    (∀ l1 t l2, ts = l1 ++ t :: l2 → (schedStep (runSched s l1) t).2 = true →
      t.recordOk = true →
      countTriggers (schedStep (runSched s l1) t).1 l2 = 0) ∧
    (∀ (env : RecordEnv) (sr : SendResult),
      (rowsOf (record_measurement env sr).events).length ≤ 1) := by
  refine ⟨?_, countTriggers_le_two d h m ts hts s, ?_, ?_, ?_⟩
  · intro s' t' htrig
    exact (schedBranch_trigger htrig).2.2.2.2.2
  · intro hlhp
    exact countTriggers_le_one_of_lhp d h m ts hts s hlhp
  · intro l1 t l2 hdecomp htrig hrec
    have hmem : t ∈ ts := by
      rw [hdecomp]
      exact List.mem_append.mpr (Or.inr (List.mem_cons_self t l2))
    have hl2 : ∀ u ∈ l2, inMinute d h m u := by
      intro u hu
      refine hts u ?_
      rw [hdecomp]
      exact List.mem_append.mpr (Or.inr (List.mem_cons_of_mem t hu))
    exact countTriggers_zero_after_success d h m (runSched s l1) t (hts t hmem)
      htrig hrec l2 hl2
  · exact record_measurement_rows_le_one

/-- Witness for C1's amended bounds: a lone late wake (second 10) in minute
(100, 7, 0) triggers nothing. -/
theorem scheduler_minute_trigger_bounds_witness :
    countTriggers schedInit [⟨100, 7, 0, 10, true, true, false⟩] ≤ 2 :=
  (scheduler_minute_trigger_bounds 100 7 0 schedInit
    [⟨100, 7, 0, 10, true, true, false⟩] (by decide)).2.1

/-- Claim C1 counterexample: starting from a fresh loop, successful cycles at
06:58:02 and 06:59:01 leave `last_measurement_minute = 59` and
`last_hour_processed = 6`; the iteration at 07:00:01 (hour not yet processed)
triggers, its measurement fails, and the end-of-iteration hour rollover clears
`last_minute_processed`, so the iteration at 07:00:03 triggers again — two
`record_measurement` calls whose wall-clock times fall in the same calendar
minute (day 100, 07:00), refuting "at most once per calendar minute". -/
theorem scheduler_double_trigger_cex :
    countTriggers
      (runSched schedInit
        [⟨100, 6, 58, 2, true, true, false⟩, ⟨100, 6, 59, 1, true, true, false⟩])
      [⟨100, 7, 0, 1, false, true, false⟩, ⟨100, 7, 0, 3, true, true, false⟩] = 2 ∧
    (∀ t ∈ [(⟨100, 7, 0, 1, false, true, false⟩ : SchedTick),
            ⟨100, 7, 0, 3, true, true, false⟩], inMinute 100 7 0 t) := by
  constructor
  · decide
  · decide

end SolarDaq
